import Mathlib

/-!
Verification of the MemoryWatch analyzer (`analyze.py`).

The analyzer reads per-process memory samples, swap snapshots and alert
records from either a structured sqlite store or flat CSV / log files,
aggregates them over a trailing time window, and renders a sectioned text
report.  Every definition below is a shallow embedding of a function of
`analyze.py`; Python floats are modelled as exact rationals (`ℚ`),
timestamps as epoch seconds (`Int`).  Filesystem and locale dependent
operations (path expansion, existence tests, `strftime` rendering) are
modelled as explicit environment functions carried in the `World`
structure.  Python's stable sorts (`sorted`, `list.sort`) are modelled by
`List.insertionSort`, which is likewise a stable sort, and SQL
`ORDER BY ... LIMIT n` clauses by sorting followed by `List.take`.
-/

/-- One joined row of `process_samples` / one parsed CSV memory row:
pid, process name, resident memory in MB, timestamp (epoch seconds).
Sqlite integer pids are embedded as their decimal strings; grouping only
uses pid equality, which the embedding preserves. -/
structure SampleRow where
  pid : String
  name : String
  memory_mb : ℚ
  ts : Int
deriving DecidableEq

/-- A per-process growth record as built by `_analyze_memory_trends_*`. -/
structure GrowthResult where
  pid : String
  command : String
  first_rss : ℚ
  last_rss : ℚ
  max_rss : ℚ
  growth_mb : ℚ
  growth_pct : ℚ
  samples : Nat
deriving DecidableEq

/-- `datetime.now() - timedelta(hours=hours)` as epoch seconds. -/
def hoursCutoff (now : Int) (hours : Int) : Int := now - hours * 3600

/-- Insertion-order list of distinct pids, as produced by iterating a
Python `defaultdict` keyed by pid (`process_data.items()`). -/
def trendPids (rows : List SampleRow) : List String :=
  rows.foldl (fun acc r => if r.pid ∈ acc then acc else acc ++ [r.pid]) []

/-- The `(timestamp, memory)` sample list accumulated for one pid, in row
order (`process_data[pid]["samples"]`). -/
def pidSamples (rows : List SampleRow) (p : String) : List (Int × ℚ) :=
  (rows.filter (fun r => r.pid == p)).map (fun r => (r.ts, r.memory_mb))

/-- `process_data[pid]["max_rss"]`: running `max` starting from `0`. -/
def pidMaxRss (rows : List SampleRow) (p : String) : ℚ :=
  (rows.filter (fun r => r.pid == p)).foldl (fun m r => max m r.memory_mb) 0

/-- `process_data[pid]["cmd"]`: overwritten on every row, so the name of
the last row iterated for this pid. -/
def pidCmd (rows : List SampleRow) (p : String) : String :=
  (rows.filter (fun r => r.pid == p)).foldl (fun _ r => r.name) ""

/-- Body of the per-pid loop in `_analyze_memory_trends_sqlite` /
`_analyze_memory_trends_csv`: skip pids with fewer than two samples,
sort the samples chronologically, and build the growth record. -/
def mkGrowthResult (rows : List SampleRow) (p : String) : Option GrowthResult :=
  let samps := pidSamples rows p
  if samps.length < 2 then none
  else
    let sorted := List.insertionSort (fun a b => a.1 ≤ b.1) samps
    let first_rss := (sorted.headD (0, 0)).2
    let last_rss := (sorted.getLastD (0, 0)).2
    let growth := last_rss - first_rss
    let growth_pct := if first_rss > 0 then growth / first_rss * 100 else 0
    some { pid := p, command := pidCmd rows p, first_rss := first_rss,
           last_rss := last_rss, max_rss := pidMaxRss rows p,
           growth_mb := growth, growth_pct := growth_pct,
           samples := sorted.length }

/-- Shared tail of both trend backends: build one result per grouped pid
and sort descending by `growth_mb` (`sorted(..., reverse=True)`). -/
def analyzeTrendRows (rows : List SampleRow) : List GrowthResult :=
  List.insertionSort (fun a b => b.growth_mb ≤ a.growth_mb)
    ((trendPids rows).filterMap (mkGrowthResult rows))

/-- The rows the sqlite trend query feeds into the grouping loop:
`WHERE s.timestamp >= cutoff ORDER BY s.timestamp ASC`. -/
def trendRowsInWindowSqlite (dbRows : List SampleRow) (now hours : Int) : List SampleRow :=
  List.insertionSort (fun a b => a.ts ≤ b.ts)
    (dbRows.filter (fun r => decide (hoursCutoff now hours ≤ r.ts)))

/-- `_analyze_memory_trends_sqlite` over the joined sample rows. -/
def analyze_memory_trends_sqlite (dbRows : List SampleRow) (now hours : Int) : List GrowthResult :=
  analyzeTrendRows (trendRowsInWindowSqlite dbRows now hours)

/-- One raw CSV row of `memory_log.csv`; a `none` field models a missing
column (`KeyError`) or an unparseable value (`ValueError`). -/
structure MemCsvRow where
  timestamp : Option Int
  pid : Option String
  rss_mb : Option ℚ
  command : Option String
deriving DecidableEq

/-- Per-row parse in `_analyze_memory_trends_csv`; any failing field makes
the whole row be skipped silently. -/
def parseMemRow (r : MemCsvRow) : Option SampleRow :=
  match r.timestamp, r.pid, r.rss_mb, r.command with
  | some ts, some p, some m, some c => some ⟨p, c, m, ts⟩
  | _, _, _, _ => none

/-- The rows the CSV trend backend feeds into the grouping loop: parsed
rows in file order with `ts < cutoff` rows skipped. -/
def trendRowsInWindowCsv (rows : List MemCsvRow) (now hours : Int) : List SampleRow :=
  (rows.filterMap parseMemRow).filter (fun r => decide (hoursCutoff now hours ≤ r.ts))

/-- `_analyze_memory_trends_csv`; `none` models an absent `memory_log.csv`
(the function returns `[]`). -/
def analyze_memory_trends_csv (file : Option (List MemCsvRow)) (now hours : Int) : List GrowthResult :=
  match file with
  | none => []
  | some rows => analyzeTrendRows (trendRowsInWindowCsv rows now hours)

/-- A swap snapshot row (sqlite `snapshots` table / parsed swap CSV row). -/
structure SwapSnap where
  ts : Int
  swap_mb : ℚ
  total_mb : ℚ
  free_pct : ℚ
deriving DecidableEq

/-- The dict returned by `_analyze_swap_usage_*` when data is present. -/
structure SwapSummary where
  avg_swap_mb : ℚ
  max_swap_mb : ℚ
  min_free_pct : ℚ
  samples : Nat
  estimated_ssd_writes_mb : ℚ
  swap_data : List SwapSnap
deriving DecidableEq

/-- Python `max(iterable)` on a nonempty list (`max` of the empty list
raises; the `0` default is never reached by the callers below). -/
def listMaxQ : List ℚ → ℚ
  | [] => 0
  | x :: xs => xs.foldl max x

/-- Python `min(iterable)` on a nonempty list. -/
def listMinQ : List ℚ → ℚ
  | [] => 0
  | x :: xs => xs.foldl min x

/-- Shared tail of both swap backends: `{}` (modelled `none`) on no data,
else the summary statistics over the collected snapshots. -/
def summarizeSwap (swap_data : List SwapSnap) : Option SwapSummary :=
  if swap_data.isEmpty then none
  else some
    { avg_swap_mb := (swap_data.map (fun d => d.swap_mb)).sum / (swap_data.length : ℚ),
      max_swap_mb := listMaxQ (swap_data.map (fun d => d.swap_mb)),
      min_free_pct := listMinQ (swap_data.map (fun d => d.free_pct)),
      samples := swap_data.length,
      estimated_ssd_writes_mb := (swap_data.map (fun d => d.swap_mb)).sum,
      swap_data := swap_data }

/-- The snapshots the sqlite swap query returns:
`WHERE timestamp >= cutoff ORDER BY timestamp ASC`. -/
def swapRowsInWindowSqlite (snaps : List SwapSnap) (now hours : Int) : List SwapSnap :=
  List.insertionSort (fun a b => a.ts ≤ b.ts)
    (snaps.filter (fun s => decide (hoursCutoff now hours ≤ s.ts)))

/-- `_analyze_swap_usage_sqlite`. -/
def analyze_swap_usage_sqlite (snaps : List SwapSnap) (now hours : Int) : Option SwapSummary :=
  summarizeSwap (swapRowsInWindowSqlite snaps now hours)

/-- One raw CSV row of `swap_history.csv`. -/
structure SwapCsvRow where
  timestamp : Option Int
  swap_used_mb : Option ℚ
  swap_total_mb : Option ℚ
  free_pct : Option ℚ
deriving DecidableEq

/-- Per-row parse in `_analyze_swap_usage_csv`. -/
def parseSwapRow (r : SwapCsvRow) : Option SwapSnap :=
  match r.timestamp, r.swap_used_mb, r.swap_total_mb, r.free_pct with
  | some ts, some u, some t, some f => some ⟨ts, u, t, f⟩
  | _, _, _, _ => none

/-- The snapshots the CSV swap backend collects (file order, cutoff
filtered, bad rows skipped). -/
def swapRowsInWindowCsv (rows : List SwapCsvRow) (now hours : Int) : List SwapSnap :=
  (rows.filterMap parseSwapRow).filter (fun s => decide (hoursCutoff now hours ≤ s.ts))

/-- `_analyze_swap_usage_csv`; `none` models an absent `swap_history.csv`. -/
def analyze_swap_usage_csv (file : Option (List SwapCsvRow)) (now hours : Int) : Option SwapSummary :=
  match file with
  | none => none
  | some rows => summarizeSwap (swapRowsInWindowCsv rows now hours)

/-- The relevant keys of an alert's parsed JSON metadata.  Metadata values
are modelled as strings; Python truthiness of a value is modelled as the
string being nonempty. -/
structure AlertMeta where
  artifact_path : Option String
  artifact_exists : Option String
  title : Option String
  swap_used_mb : Option String
  swap_total_mb : Option String
  pressure : Option String
deriving DecidableEq

/-- State of the `metadata` column of one alert row: `absent` models a
NULL/empty (falsy) value, `malformed` a `json.JSONDecodeError`, `parsed`
a successfully decoded object payload.  A structurally valid JSON value
that is not an object is outside this type: on such metadata the source's
`meta.get(...)` calls raise an uncaught `AttributeError`, one of the
crash paths made explicit by the degraded-state model further below. -/
inductive AlertMetadata where
  | absent : AlertMetadata
  | malformed : AlertMetadata
  | parsed : AlertMeta → AlertMetadata
deriving DecidableEq

/-- One row of the sqlite `alerts` table. -/
structure Alert where
  ts : Int
  type : String
  message : String
  pid : Option Int
  process_name : Option String
  metadata : AlertMetadata
deriving DecidableEq

/-- `f" PID={pid}" if pid is not None else ""`. -/
def pidSuffix (pid : Option Int) : String :=
  match pid with
  | some p => " PID=" ++ toString p
  | none => ""

/-- `if name: suffix += f" process={name}"` (None and `""` are falsy). -/
def nameSuffix (pname : Option String) : String :=
  match pname with
  | some n => if n = "" then "" else " process=" ++ n
  | none => ""

/-- The shared shape of the three alert queries:
`WHERE timestamp >= cutoff AND type IN types ORDER BY timestamp DESC LIMIT cap`. -/
def alertsQuery (alerts : List Alert) (types : List String) (cutoff : Int) (cap : Nat) : List Alert :=
  (List.insertionSort (fun a b => b.ts ≤ a.ts)
    (alerts.filter (fun a => decide (cutoff ≤ a.ts) && types.contains a.type))).take cap

/-- Leak-type alert filter of `_get_memory_leaks_sqlite`. -/
def leakAlertTypes : List String := ["MEMORY_LEAK", "RAPID_GROWTH"]

/-- Line format of `_get_memory_leaks_sqlite`; `fmtTs` models
`datetime.fromtimestamp(ts).strftime("%Y-%m-%d %H:%M:%S")`. -/
def formatLeak (fmtTs : Int → String) (a : Alert) : String :=
  "[" ++ fmtTs a.ts ++ "] " ++ a.type ++ ": " ++ a.message ++
    (pidSuffix a.pid ++ nameSuffix a.process_name)

/-- `_get_memory_leaks_sqlite`. -/
def get_memory_leaks_sqlite (fmtTs : Int → String) (alerts : List Alert) (now hours : Int) : List String :=
  (alertsQuery alerts leakAlertTypes (hoursCutoff now hours) 200).map (formatLeak fmtTs)

/-- Metadata suffix of a diagnostic-hint line: the artifact path when
present and truthy, and a "(missing)" marker when `artifact_exists` is the
literal string "false"; absent or malformed metadata contributes nothing. -/
def metaHintSuffix (m : AlertMetadata) : String :=
  match m with
  | AlertMetadata.parsed meta =>
      (match meta.artifact_path with
       | some p => if p = "" then "" else " artifact=" ++ p
       | none => "") ++
      (if meta.artifact_exists = some "false" then " (missing)" else "")
  | _ => ""

/-- Line format of `_get_diagnostic_hints_sqlite` (the reduced-column
`OperationalError` fallback, which yields the same lines with empty
metadata, is not modelled separately). -/
def formatHint (fmtTs : Int → String) (a : Alert) : String :=
  "[" ++ fmtTs a.ts ++ "] " ++ a.message ++
    (pidSuffix a.pid ++ nameSuffix a.process_name ++ metaHintSuffix a.metadata)

/-- `_get_diagnostic_hints_sqlite`. -/
def get_diagnostic_hints_sqlite (fmtTs : Int → String) (alerts : List Alert) (now hours : Int) : List String :=
  (alertsQuery alerts ["DIAGNOSTIC_HINT"] (hoursCutoff now hours) 50).map (formatHint fmtTs)

/-- System alert type filter of `_get_system_alerts_sqlite`. -/
def systemAlertTypes : List String := ["SYSTEM_PRESSURE", "HIGH_SWAP", "DATASTORE_WARNING"]

/-- The `extras` list of `_get_system_alerts_sqlite`: swap figures for
HIGH_SWAP alerts and a generic pressure field, each only when present and
truthy; malformed metadata degrades to an empty dict. -/
def systemAlertExtras (type : String) (m : AlertMetadata) : List String :=
  match m with
  | AlertMetadata.parsed meta =>
      (if type = "HIGH_SWAP" then
        (match meta.swap_used_mb with
         | some u => if u = "" then [] else ["swap=" ++ u ++ "MB"]
         | none => []) ++
        (match meta.swap_total_mb with
         | some t => if t = "" then [] else ["total=" ++ t ++ "MB"]
         | none => [])
      else []) ++
      (match meta.pressure with
       | some p => if p = "" then [] else ["pressure=" ++ p]
       | none => [])
  | AlertMetadata.malformed => []
  | AlertMetadata.absent => []

/-- Line format of `_get_system_alerts_sqlite`. -/
def formatSystemAlert (fmtTs : Int → String) (a : Alert) : String :=
  let extras := systemAlertExtras a.type a.metadata
  "[" ++ fmtTs a.ts ++ "] " ++ a.type ++ ": " ++ a.message ++
    (if extras.isEmpty then "" else " (" ++ String.intercalate ", " extras ++ ")")

/-- `_get_system_alerts_sqlite`. -/
def get_system_alerts_sqlite (fmtTs : Int → String) (alerts : List Alert) (now hours : Int) : List String :=
  (alertsQuery alerts systemAlertTypes (hoursCutoff now hours) 50).map (formatSystemAlert fmtTs)

/-- One line of the legacy `memory_leaks.log`.  The source reads only the
raw line text; the `ts` field records the line's actual timestamp (ground
truth carried by the embedding so that time-window properties can be
stated about this backend, which itself never parses timestamps). -/
structure LeakLine where
  ts : Int
  text : String
deriving DecidableEq

/-- Substring test over character lists (Python's `pat in line`). -/
def containsSeq (pat : List Char) : List Char → Bool
  | [] => pat.isEmpty
  | c :: rest => pat.isPrefixOf (c :: rest) || containsSeq pat rest

/-- `"POTENTIAL LEAK" in line`. -/
def hasLeakMarker (line : String) : Bool :=
  containsSeq "POTENTIAL LEAK".toList line.toList

/-- The lines `_get_memory_leaks_legacy` selects: every line containing
the marker, in file order, with no cap and no time filter. -/
def legacyLeakSelect (lines : List LeakLine) : List LeakLine :=
  lines.filter (fun l => hasLeakMarker l.text)

/-- `_get_memory_leaks_legacy`; `none` models an absent `memory_leaks.log`. -/
def get_memory_leaks_legacy (file : Option (List LeakLine)) : List String :=
  match file with
  | none => []
  | some lines => (legacyLeakSelect lines).map (fun l => l.text.trim)

/-- One entry of the artifact list built by `_get_diagnostic_artifacts_sqlite`. -/
structure Artifact where
  title : String
  path : String
  existsFlag : Bool
deriving DecidableEq

/-- `meta.get("title") or message`: the message when the title key is
absent or falsy. -/
def artifactTitle (meta : AlertMeta) (message : String) : String :=
  match meta.title with
  | some t => if t = "" then message else t
  | none => message

/-- Body of the artifact loop for one alert row: `None` on absent or
malformed metadata or an absent/falsy `artifact_path`; otherwise the
entry with the user-expanded path (`expand` models
`Path(p).expanduser()`) and its live existence test (`pexists`). -/
def extractArtifact (expand : String → String) (pexists : String → Bool) (a : Alert) : Option Artifact :=
  match a.metadata with
  | AlertMetadata.parsed meta =>
      (match meta.artifact_path with
       | some p =>
           if p = "" then none
           else
             let expanded := expand p
             some { title := artifactTitle meta a.message, path := expanded,
                    existsFlag := pexists expanded }
       | none => none)
  | _ => none

/-- The deduplication key `(expanded, exists)` of the `seen` set. -/
def artifactKey (a : Artifact) : String × Bool := (a.path, a.existsFlag)

/-- The artifact collection loop with its `seen` set and accumulator. -/
def collectArtifacts (expand : String → String) (pexists : String → Bool) :
    List Alert → List (String × Bool) → List Artifact → List Artifact
  | [], _, acc => acc
  | r :: rs, seen, acc =>
    match extractArtifact expand pexists r with
    | none => collectArtifacts expand pexists rs seen acc
    | some a =>
      if artifactKey a ∈ seen then collectArtifacts expand pexists rs seen acc
      else collectArtifacts expand pexists rs (artifactKey a :: seen) (acc ++ [a])

/-- `_get_diagnostic_artifacts_sqlite`: collect over the capped hint
query, then `artifacts.sort(key=lambda item: item["title"])`. -/
def get_diagnostic_artifacts_sqlite (expand : String → String) (pexists : String → Bool)
    (alerts : List Alert) (now hours : Int) : List Artifact :=
  List.insertionSort (fun a b => a.title ≤ b.title)
    (collectArtifacts expand pexists
      (alertsQuery alerts ["DIAGNOSTIC_HINT"] (hoursCutoff now hours) 200) [] [])

/-- The `quietHours` object of the preferences JSON; absent keys are
modelled as `none` (`quiet.get(key, default)`). -/
structure QuietHours where
  startMinutes : Option Int
  endMinutes : Option Int
  timezoneIdentifier : Option String
deriving DecidableEq

/-- The notification-preferences JSON document.  Absent boolean keys are
`none`; `prefs.get("allowInterruptionsDuringQuietHours")` is plain Python
truthiness, modelled as `Bool` with `false` for an absent key. -/
structure Prefs where
  quietHours : Option QuietHours
  allowInterruptionsDuringQuietHours : Bool
  leakNotificationsEnabled : Option Bool
  pressureNotificationsEnabled : Option Bool
deriving DecidableEq

/-- Contents of the structured sqlite store: the joined sample rows the
trend query sees, the snapshot rows, and the alert rows. -/
structure Store where
  samples : List SampleRow
  snapshots : List SwapSnap
  alerts : List Alert

/-- The whole state the analyzer can observe on its non-raising paths:
the sqlite store (absent, or present with the expected schema), the three
optional flat files, the optional parsed preferences file (`none` also
models an unreadable/corrupt file), the current time, and the environment
functions for timestamp rendering, path expansion and filesystem
existence.  A present database file without the expected tables is not a
`World`: on it the source raises instead of returning data — that state
is modelled separately by `DbState` and `WorldE` below. -/
structure World where
  db : Option Store
  memCsv : Option (List MemCsvRow)
  swapCsv : Option (List SwapCsvRow)
  leaksLog : Option (List LeakLine)
  prefsFile : Option Prefs
  now : Int
  fmtTs : Int → String
  expandPath : String → String
  pathExists : String → Bool

/-- `analyze_memory_trends`: sqlite when the structured store exists,
else the CSV fallback. -/
def analyze_memory_trends (w : World) (hours : Int) : List GrowthResult :=
  match w.db with
  | some s => analyze_memory_trends_sqlite s.samples w.now hours
  | none => analyze_memory_trends_csv w.memCsv w.now hours

/-- `analyze_swap_usage`. -/
def analyze_swap_usage (w : World) (hours : Int) : Option SwapSummary :=
  match w.db with
  | some s => analyze_swap_usage_sqlite s.snapshots w.now hours
  | none => analyze_swap_usage_csv w.swapCsv w.now hours

/-- `get_memory_leaks` (Python default `hours=168`; the report call site
passes that default explicitly below). -/
def get_memory_leaks (w : World) (hours : Int) : List String :=
  match w.db with
  | some s => get_memory_leaks_sqlite w.fmtTs s.alerts w.now hours
  | none => get_memory_leaks_legacy w.leaksLog

/-- `get_diagnostic_hints` (Python default `hours=48`). -/
def get_diagnostic_hints (w : World) (hours : Int) : List String :=
  match w.db with
  | some s => get_diagnostic_hints_sqlite w.fmtTs s.alerts w.now hours
  | none => []

/-- `get_system_alerts` (Python default `hours=72`). -/
def get_system_alerts (w : World) (hours : Int) : List String :=
  match w.db with
  | some s => get_system_alerts_sqlite w.fmtTs s.alerts w.now hours
  | none => []

/-- `get_diagnostic_artifacts` (Python default `hours=48`). -/
def get_diagnostic_artifacts (w : World) (hours : Int) : List Artifact :=
  match w.db with
  | some s => get_diagnostic_artifacts_sqlite w.expandPath w.pathExists s.alerts w.now hours
  | none => []

/-- `load_notification_preferences`: the parsed file, or `None` on
absence or any read/decode error. -/
def load_notification_preferences (w : World) : Option Prefs :=
  w.prefsFile

/-- `f"{n:02d}"` for `0 ≤ n < 100`, the only range reached below. -/
def pad2 (n : Int) : String :=
  if n < 10 then "0" ++ toString n else toString n

/-- `minutes_to_hhmm`. -/
def minutes_to_hhmm (minutes : Int) : String :=
  let m := minutes % (24 * 60)
  pad2 (m / 60) ++ ":" ++ pad2 (m % 60)

/-- Left-pad with spaces to width `n` (Python `f"{s:>n}"`). -/
def padLeft (s : String) (n : Nat) : String :=
  String.mk (List.replicate (n - s.length) ' ') ++ s

/-- Right-pad with spaces to width `n` (Python `f"{s:<n}"`). -/
def padRight (s : String) (n : Nat) : String :=
  s ++ String.mk (List.replicate (n - s.length) ' ')

/-- `enumerate(l, n)`. -/
def enumFrom (n : Nat) : List α → List (Nat × α)
  | [] => []
  | x :: xs => (n, x) :: enumFrom (n + 1) xs

/-- `"=" * 80`. -/
def hline : String := String.mk (List.replicate 80 '=')

/-- `"-" * 80`. -/
def divider : String := String.mk (List.replicate 80 '-')

/-- One rendered trend row.  `fmtF1` models Python `"{:.1f}"` float
rendering, the only part of the report the rational model cannot express
exactly; everything else of the f-string (text and space padding) is
concrete. -/
def trendLine (fmtF1 : ℚ → String) (i : Nat) (p : GrowthResult) : String :=
  padLeft (toString i) 2 ++ ". PID " ++ padLeft p.pid 6 ++ " | " ++
    padRight p.command 30 ++ " | Growth: " ++ padLeft (fmtF1 p.growth_mb) 7 ++
    "MB (" ++ padLeft (fmtF1 p.growth_pct) 6 ++ "%) | Max: " ++
    padLeft (fmtF1 p.max_rss) 7 ++ "MB | Samples: " ++ toString p.samples

/-- Python `l[-n:]`. -/
def pySliceLast (n : Nat) (l : List α) : List α :=
  l.drop (l.length - n)

/-- Report banner lines. -/
def reportIntro (w : World) (hours : Int) : List String :=
  [hline,
   "Memory Watch Analysis Report - Last " ++ toString hours ++ " hours",
   "Generated: " ++ w.fmtTs w.now,
   hline,
   ""]

/-- Memory trend section of `generate_report`. -/
def trendSection (fmtF1 : ℚ → String) (trends : List GrowthResult) : List String :=
  ["## Top Memory Growth Processes", divider] ++
  (if trends.isEmpty then ["No data available"]
   else (enumFrom 1 (trends.take 10)).map (fun ip => trendLine fmtF1 ip.1 ip.2)) ++
  [""]

/-- Swap section of `generate_report`, with the inline high-swap warning
block when `max_swap_mb > 1024`. -/
def swapSection (fmtF1 : ℚ → String) (swap : Option SwapSummary) : List String :=
  ["## Swap Usage Analysis", divider] ++
  (match swap with
   | some s =>
     ["Average Swap Used:        " ++ fmtF1 s.avg_swap_mb ++ " MB",
      "Maximum Swap Used:        " ++ fmtF1 s.max_swap_mb ++ " MB",
      "Minimum Free:             " ++ fmtF1 s.min_free_pct ++ "%",
      "Est. SSD Writes:          " ++ fmtF1 s.estimated_ssd_writes_mb ++ " MB",
      "Samples:                  " ++ toString s.samples] ++
     (if s.max_swap_mb > 1024 then
       ["",
        "⚠️  WARNING: High swap usage detected (>1GB)",
        "   This can cause SSD wear and system slowdown"]
      else [])
   | none => ["No data available"]) ++
  [""]

/-- Leak section of `generate_report`.  Note the slice `leaks[-20:]`:
of the descending-by-timestamp leak list, the LAST 20 entries (the oldest
retrieved ones) are rendered. -/
def leakSection (leaks : List String) : List String :=
  ["## Potential Memory Leaks", divider] ++
  (if leaks.isEmpty then ["✓ No memory leaks detected"]
   else ("Found " ++ toString leaks.length ++ " potential leak(s):") ::
        (pySliceLast 20 leaks).map (fun l => "  " ++ l)) ++
  [""]

/-- Diagnostic-hint section of `generate_report` (`hints[:15]`). -/
def hintSection (hints : List String) : List String :=
  ["## Diagnostic Suggestions", divider] ++
  (if hints.isEmpty then ["No runtime-specific diagnostic hints recorded"]
   else (hints.take 15).map (fun h => "  " ++ h)) ++
  [""]

/-- Notification-preferences section of `generate_report`. -/
def prefsSection (prefs : Option Prefs) : List String :=
  ["## Notification Preferences", divider] ++
  (match prefs with
   | some p =>
     (match p.quietHours with
      | some q =>
        ["  Quiet hours: " ++ minutes_to_hhmm (q.startMinutes.getD 0) ++ "–" ++
          minutes_to_hhmm (q.endMinutes.getD 0) ++ " " ++
          q.timezoneIdentifier.getD "local"]
      | none => ["  Quiet hours: disabled"]) ++
     ["  Quiet-hour policy: " ++
        (if p.allowInterruptionsDuringQuietHours then "deliver" else "hold"),
      "  Leak alerts: " ++
        (if p.leakNotificationsEnabled.getD true then "enabled" else "disabled"),
      "  Pressure alerts: " ++
        (if p.pressureNotificationsEnabled.getD true then "enabled" else "disabled")]
   | none => ["  No preference file found (defaults in effect)"]) ++
  [""]

/-- System-alert section of `generate_report` (`system_alerts[:20]`). -/
def alertSection (alerts : List String) : List String :=
  ["## System Alerts", divider] ++
  (if alerts.isEmpty then ["No high-pressure or swap alerts recorded"]
   else (alerts.take 20).map (fun a => "  " ++ a)) ++
  [""]

/-- Artifact section of `generate_report` (`artifacts[:20]`). -/
def artifactSection (arts : List Artifact) : List String :=
  ["## Diagnostic Artifacts", divider] ++
  (if arts.isEmpty then ["No artifacts persisted yet."]
   else (arts.take 20).map (fun a =>
     "  " ++ (if a.existsFlag then "✅" else "⚠️ missing") ++ " " ++
       a.title ++ ": " ++ a.path)) ++
  [""]

/-- The seven query results `generate_report` gathers, with the window
arguments it actually passes: the CLI window `hours` reaches only the
trend and swap analyses, while the leak, hint, system-alert and artifact
queries are invoked without an `hours` argument and therefore use their
Python defaults 168, 48, 72 and 48. -/
structure ReportData where
  trends : List GrowthResult
  swap : Option SwapSummary
  leaks : List String
  hints : List String
  prefs : Option Prefs
  systemAlerts : List String
  artifacts : List Artifact

/-- The data-gathering half of `generate_report`. -/
def reportQueries (w : World) (hours : Int) : ReportData :=
  { trends := analyze_memory_trends w hours,
    swap := analyze_swap_usage w hours,
    leaks := get_memory_leaks w 168,
    hints := get_diagnostic_hints w 48,
    prefs := load_notification_preferences w,
    systemAlerts := get_system_alerts w 72,
    artifacts := get_diagnostic_artifacts w 48 }

/-- `generate_report` as the list of report lines (the Python function
returns their `"\n"`-join). -/
def generate_report (fmtF1 : ℚ → String) (w : World) (hours : Int) : List String :=
  let d := reportQueries w hours
  reportIntro w hours ++
  trendSection fmtF1 d.trends ++
  swapSection fmtF1 d.swap ++
  leakSection d.leaks ++
  hintSection d.hints ++
  prefsSection d.prefs ++
  alertSection d.systemAlerts ++
  artifactSection d.artifacts ++
  [hline]

/-- A demo hint alert carrying artifact metadata, for concrete
instantiations of the artifact theorems. -/
def artifactDemoAlert : Alert :=
  ⟨5, "DIAGNOSTIC_HINT", "msg", none, none,
    AlertMetadata.parsed ⟨some "/tmp/x", some "false", none, none, none, none⟩⟩

/-- A demo world whose structured store holds exactly `artifactDemoAlert`,
with identity path expansion and a filesystem on which nothing exists. -/
def artifactDemoWorld : World :=
  { db := some ⟨[], [], [artifactDemoAlert]⟩, memCsv := none, swapCsv := none,
    leaksLog := none, prefsFile := none, now := 3600, fmtTs := fun _ => "",
    expandPath := fun p => p, pathExists := fun _ => false }

/-- A world in which the structured store and every flat file are absent. -/
def emptyWorld : World :=
  { db := none, memCsv := none, swapCsv := none, leaksLog := none,
    prefsFile := none, now := 0, fmtTs := fun _ => "",
    expandPath := fun p => p, pathExists := fun _ => false }

/-- Python `Path(p).expanduser()` for home directory `home`: a bare "~"
or a leading "~/" component is replaced by the home directory; every
other path — in particular every relative path that does not start with
"~" — is returned unchanged, so expansion alone never makes a relative
path absolute.  (`~user` forms, which Python resolves through the
password database, are also returned unchanged here; nothing below
depends on them.) -/
def pathExpanduser (home : String) (p : String) : String :=
  if p = "~" then home
  else if "~/".toList.isPrefixOf p.toList then home ++ p.drop 1
  else p

/-- POSIX absoluteness of a path string (Python `PurePath.is_absolute`):
the path starts with "/". -/
def isAbsolutePath (p : String) : Bool :=
  "/".toList.isPrefixOf p.toList

/-- A demo world whose single hint alert carries the relative artifact
path "relative/leak.log", resolved with `pathExpanduser` for home
directory "/Users/u" and a filesystem on which nothing exists. -/
def relativeArtifactWorld : World :=
  { db := some ⟨[], [], [⟨5, "DIAGNOSTIC_HINT", "msg2", none, none,
      AlertMetadata.parsed ⟨some "relative/leak.log", none, none, none, none, none⟩⟩]⟩,
    memCsv := none, swapCsv := none, leaksLog := none, prefsFile := none,
    now := 3600, fmtTs := fun _ => "", expandPath := pathExpanduser "/Users/u",
    pathExists := fun _ => false }

/-- State of the structured database file: absent, present without the
expected tables (for instance a freshly created empty sqlite file), or
present with the expected schema.  In the `missingTables` state every
query this program issues raises `sqlite3.OperationalError`, and no
caller on the trend/swap/leak/artifact paths catches it. -/
inductive DbState where
  | absent : DbState
  | missingTables : DbState
  | ready : Store → DbState

/-- The observable state with the degraded-database case kept explicit
(`World` covers only the two non-raising database states). -/
structure WorldE where
  db : DbState
  memCsv : Option (List MemCsvRow)
  swapCsv : Option (List SwapCsvRow)
  leaksLog : Option (List LeakLine)
  prefsFile : Option Prefs
  now : Int
  fmtTs : Int → String
  expandPath : String → String
  pathExists : String → Bool

/-- The non-raising `World` corresponding to a `WorldE`, given the store
option its database state denotes. -/
def WorldE.toWorld (w : WorldE) (dbOpt : Option Store) : World :=
  { db := dbOpt, memCsv := w.memCsv, swapCsv := w.swapCsv,
    leaksLog := w.leaksLog, prefsFile := w.prefsFile, now := w.now,
    fmtTs := w.fmtTs, expandPath := w.expandPath, pathExists := w.pathExists }

/-- `generate_report` with the sqlite exception path made explicit.  When
the database file exists but lacks the expected tables, `db_connection`
still returns a connection, so the very first query
(`_analyze_memory_trends_sqlite`) raises `sqlite3.OperationalError`;
`generate_report` wraps its stages in `try/finally` with no handler, so
the exception escapes `main` and the process dies with a traceback and a
nonzero exit instead of returning a report.  In the two non-raising
database states the run is exactly `generate_report`. -/
def generate_report_checked (fmtF1 : ℚ → String) (w : WorldE) (hours : Int) :
    Except String (List String) :=
  match w.db with
  | DbState.missingTables => Except.error "sqlite3.OperationalError: no such table"
  | DbState.absent => Except.ok (generate_report fmtF1 (w.toWorld none) hours)
  | DbState.ready s => Except.ok (generate_report fmtF1 (w.toWorld (some s)) hours)

instance : IsTotal GrowthResult (fun a b => b.growth_mb ≤ a.growth_mb) :=
  ⟨fun a b => le_total b.growth_mb a.growth_mb⟩

instance : IsTrans GrowthResult (fun a b => b.growth_mb ≤ a.growth_mb) :=
  ⟨fun _ _ _ hab hbc => le_trans hbc hab⟩

theorem mkGrowthResult_inv {rows : List SampleRow} {p : String} {r : GrowthResult}
    (h : mkGrowthResult rows p = some r) :
    r.pid = p ∧ r.samples = (pidSamples rows p).length ∧ 2 ≤ r.samples ∧
    r.growth_pct =
      (if r.first_rss > 0 then (r.last_rss - r.first_rss) / r.first_rss * 100 else 0) := by
  unfold mkGrowthResult at h
  by_cases hlen : (pidSamples rows p).length < 2
  · simp [hlen] at h
  · simp only [if_neg hlen, Option.some.injEq] at h
    subst h
    refine ⟨rfl, (List.perm_insertionSort _ _).length_eq, ?_, rfl⟩
    show 2 ≤ (List.insertionSort (fun a b => a.1 ≤ b.1) (pidSamples rows p)).length
    rw [(List.perm_insertionSort (fun a b => a.1 ≤ b.1) (pidSamples rows p)).length_eq]
    omega

theorem mem_analyzeTrendRows {rows : List SampleRow} {r : GrowthResult}
    (h : r ∈ analyzeTrendRows rows) :
    ∃ p ∈ trendPids rows, mkGrowthResult rows p = some r := by
  unfold analyzeTrendRows at h
  exact List.mem_filterMap.mp ((List.perm_insertionSort _ _).mem_iff.mp h)

theorem analyzeTrendRows_samples {rows : List SampleRow} {r : GrowthResult}
    (h : r ∈ analyzeTrendRows rows) :
    2 ≤ r.samples ∧ r.samples = (pidSamples rows r.pid).length := by
  obtain ⟨p, _, hmk⟩ := mem_analyzeTrendRows h
  obtain ⟨hpid, hs, h2, _⟩ := mkGrowthResult_inv hmk
  exact ⟨h2, by rw [hpid, hs]⟩

theorem analyzeTrendRows_growth_pct {rows : List SampleRow} {r : GrowthResult}
    (h : r ∈ analyzeTrendRows rows) :
    r.growth_pct =
      (if r.first_rss > 0 then (r.last_rss - r.first_rss) / r.first_rss * 100 else 0) := by
  obtain ⟨p, _, hmk⟩ := mem_analyzeTrendRows h
  exact (mkGrowthResult_inv hmk).2.2.2

/-- C1: on both backends, every growth result records at least two
in-window samples of its pid (its `samples` field is exactly the number of
in-window samples grouped under that pid), so no result is produced for a
process id with fewer than two samples inside the window. -/
theorem growth_results_have_two_samples :
    (∀ dbRows now hours r, r ∈ analyze_memory_trends_sqlite dbRows now hours →
      2 ≤ r.samples ∧
      r.samples = (pidSamples (trendRowsInWindowSqlite dbRows now hours) r.pid).length) ∧
    (∀ rows now hours r, r ∈ analyze_memory_trends_csv (some rows) now hours →
      2 ≤ r.samples ∧
      r.samples = (pidSamples (trendRowsInWindowCsv rows now hours) r.pid).length) ∧
    (∀ now hours, analyze_memory_trends_csv none now hours = []) :=
  ⟨fun _ _ _ _ h => analyzeTrendRows_samples h,
   fun _ _ _ _ h => analyzeTrendRows_samples h,
   fun _ _ => rfl⟩

/-- Concrete instantiation of C1: two samples of pid "1" yield one result
with `samples = 2`. -/
theorem growth_results_have_two_samples_witness :
    (⟨"1", "a", 10, 20, 20, 10, 100, 2⟩ : GrowthResult) ∈
      analyze_memory_trends_sqlite [⟨"1", "a", 10, 0⟩, ⟨"1", "a", 20, 10⟩] 10 1 ∧
    2 ≤ (⟨"1", "a", 10, 20, 20, 10, 100, 2⟩ : GrowthResult).samples := by
  have hmem : (⟨"1", "a", 10, 20, 20, 10, 100, 2⟩ : GrowthResult) ∈
      analyze_memory_trends_sqlite [⟨"1", "a", 10, 0⟩, ⟨"1", "a", 20, 10⟩] 10 1 := by
    rw [show analyze_memory_trends_sqlite [⟨"1", "a", 10, 0⟩, ⟨"1", "a", 20, 10⟩] 10 1 =
        [⟨"1", "a", 10, 20, 20, 10, 100, 2⟩] from by
      norm_num [analyze_memory_trends_sqlite, trendRowsInWindowSqlite, analyzeTrendRows,
        trendPids, mkGrowthResult, pidSamples, pidMaxRss, pidCmd, hoursCutoff, max_def,
        List.insertionSort, List.orderedInsert, List.filter, List.filterMap, List.foldl]]
    exact List.mem_singleton_self _
  exact ⟨hmem,
    (growth_results_have_two_samples.1 [⟨"1", "a", 10, 0⟩, ⟨"1", "a", 20, 10⟩] 10 1
      ⟨"1", "a", 10, 20, 20, 10, 100, 2⟩ hmem).1⟩

/-- C5: on both backends, `growth_pct` is the guarded expression of the
source: exactly `0` unless `first_rss > 0`, and otherwise the exact
rational `(last - first) / first * 100`; in particular it is `0` whenever
`first_rss = 0`, and it is a total rational value for every input (the
exact-arithmetic model has no NaN or infinity to produce). -/
theorem growth_pct_guarded :
    (∀ dbRows now hours r, r ∈ analyze_memory_trends_sqlite dbRows now hours →
      (r.first_rss = 0 → r.growth_pct = 0) ∧
      r.growth_pct =
        (if r.first_rss > 0 then (r.last_rss - r.first_rss) / r.first_rss * 100 else 0)) ∧
    (∀ rows now hours r, r ∈ analyze_memory_trends_csv (some rows) now hours →
      (r.first_rss = 0 → r.growth_pct = 0) ∧
      r.growth_pct =
        (if r.first_rss > 0 then (r.last_rss - r.first_rss) / r.first_rss * 100 else 0)) := by
  constructor <;>
    · intro _ _ _ r h
      have hg := analyzeTrendRows_growth_pct h
      refine ⟨fun h0 => ?_, hg⟩
      rw [hg, h0]
      norm_num

/-- Concrete instantiation of C5: a process whose first in-window sample
is 0 MB gets `growth_pct = 0`. -/
theorem growth_pct_guarded_witness :
    (⟨"1", "a", 0, 5, 5, 5, 0, 2⟩ : GrowthResult) ∈
      analyze_memory_trends_sqlite [⟨"1", "a", 0, 0⟩, ⟨"1", "a", 5, 10⟩] 10 1 ∧
    (⟨"1", "a", 0, 5, 5, 5, 0, 2⟩ : GrowthResult).growth_pct = 0 := by
  have hmem : (⟨"1", "a", 0, 5, 5, 5, 0, 2⟩ : GrowthResult) ∈
      analyze_memory_trends_sqlite [⟨"1", "a", 0, 0⟩, ⟨"1", "a", 5, 10⟩] 10 1 := by
    rw [show analyze_memory_trends_sqlite [⟨"1", "a", 0, 0⟩, ⟨"1", "a", 5, 10⟩] 10 1 =
        [⟨"1", "a", 0, 5, 5, 5, 0, 2⟩] from by
      norm_num [analyze_memory_trends_sqlite, trendRowsInWindowSqlite, analyzeTrendRows,
        trendPids, mkGrowthResult, pidSamples, pidMaxRss, pidCmd, hoursCutoff, max_def,
        List.insertionSort, List.orderedInsert, List.filter, List.filterMap, List.foldl]]
    exact List.mem_singleton_self _
  exact ⟨hmem,
    (growth_pct_guarded.1 [⟨"1", "a", 0, 0⟩, ⟨"1", "a", 5, 10⟩] 10 1
      ⟨"1", "a", 0, 5, 5, 5, 0, 2⟩ hmem).1 rfl⟩

/-- C6: on both backends the trend output is sorted descending by
`growth_mb`; in particular every adjacent pair `(a, b)` satisfies
`b.growth_mb ≤ a.growth_mb`. -/
theorem growth_results_sorted_desc :
    (∀ dbRows now hours,
      List.Sorted (fun a b => b.growth_mb ≤ a.growth_mb)
        (analyze_memory_trends_sqlite dbRows now hours)) ∧
    (∀ file now hours,
      List.Sorted (fun a b => b.growth_mb ≤ a.growth_mb)
        (analyze_memory_trends_csv file now hours)) := by
  constructor
  · intro dbRows now hours
    exact List.sorted_insertionSort _ _
  · intro file now hours
    match file with
    | none => exact List.sorted_nil
    | some rows => exact List.sorted_insertionSort _ _

theorem le_foldl_max (xs : List ℚ) (a : ℚ) : a ≤ xs.foldl max a := by
  induction xs generalizing a with
  | nil => exact le_refl a
  | cons x xs ih =>
    rw [List.foldl_cons]
    exact le_trans (le_max_left a x) (ih (max a x))

theorem mem_le_foldl_max (xs : List ℚ) (a : ℚ) : ∀ x ∈ xs, x ≤ xs.foldl max a := by
  induction xs generalizing a with
  | nil => intro x hx; cases hx
  | cons y ys ih =>
    intro x hx
    rw [List.foldl_cons]
    rcases List.mem_cons.mp hx with rfl | h
    · exact le_trans (le_max_right a x) (le_foldl_max ys (max a x))
    · exact ih (max a y) x h

theorem foldl_max_mem (xs : List ℚ) (a : ℚ) : xs.foldl max a = a ∨ xs.foldl max a ∈ xs := by
  induction xs generalizing a with
  | nil => exact Or.inl rfl
  | cons y ys ih =>
    rw [List.foldl_cons]
    rcases ih (max a y) with h | h
    · rw [h]
      rcases le_total a y with hay | hya
      · exact Or.inr (by rw [max_eq_right hay]; exact List.mem_cons_self y ys)
      · exact Or.inl (max_eq_left hya)
    · exact Or.inr (List.mem_cons_of_mem y h)

theorem foldl_min_le (xs : List ℚ) (a : ℚ) : xs.foldl min a ≤ a := by
  induction xs generalizing a with
  | nil => exact le_refl a
  | cons x xs ih =>
    rw [List.foldl_cons]
    exact le_trans (ih (min a x)) (min_le_left a x)

theorem foldl_min_le_mem (xs : List ℚ) (a : ℚ) : ∀ x ∈ xs, xs.foldl min a ≤ x := by
  induction xs generalizing a with
  | nil => intro x hx; cases hx
  | cons y ys ih =>
    intro x hx
    rw [List.foldl_cons]
    rcases List.mem_cons.mp hx with rfl | h
    · exact le_trans (foldl_min_le ys (min a x)) (min_le_right a x)
    · exact ih (min a y) x h

theorem foldl_min_mem (xs : List ℚ) (a : ℚ) : xs.foldl min a = a ∨ xs.foldl min a ∈ xs := by
  induction xs generalizing a with
  | nil => exact Or.inl rfl
  | cons y ys ih =>
    rw [List.foldl_cons]
    rcases ih (min a y) with h | h
    · rw [h]
      rcases le_total a y with hay | hya
      · exact Or.inl (min_eq_left hay)
      · exact Or.inr (by rw [min_eq_right hya]; exact List.mem_cons_self y ys)
    · exact Or.inr (List.mem_cons_of_mem y h)

theorem listMaxQ_mem : ∀ {l : List ℚ}, l ≠ [] → listMaxQ l ∈ l
  | [], h => absurd rfl h
  | x :: xs, _ => by
    show xs.foldl max x ∈ x :: xs
    rcases foldl_max_mem xs x with h1 | h1
    · rw [h1]; exact List.mem_cons_self x xs
    · exact List.mem_cons_of_mem x h1

theorem le_listMaxQ : ∀ {l : List ℚ} {v : ℚ}, v ∈ l → v ≤ listMaxQ l
  | [], _, hv => absurd hv (List.not_mem_nil _)
  | x :: xs, v, hv => by
    show v ≤ xs.foldl max x
    rcases List.mem_cons.mp hv with rfl | h
    · exact le_foldl_max xs v
    · exact mem_le_foldl_max xs x v h

theorem listMinQ_mem : ∀ {l : List ℚ}, l ≠ [] → listMinQ l ∈ l
  | [], h => absurd rfl h
  | x :: xs, _ => by
    show xs.foldl min x ∈ x :: xs
    rcases foldl_min_mem xs x with h1 | h1
    · rw [h1]; exact List.mem_cons_self x xs
    · exact List.mem_cons_of_mem x h1

theorem listMinQ_le : ∀ {l : List ℚ} {v : ℚ}, v ∈ l → listMinQ l ≤ v
  | [], _, hv => absurd hv (List.not_mem_nil _)
  | x :: xs, v, hv => by
    show xs.foldl min x ≤ v
    rcases List.mem_cons.mp hv with rfl | h
    · exact foldl_min_le xs v
    · exact foldl_min_le_mem xs x v h

theorem avg_le_listMaxQ (l : List ℚ) (h : l ≠ []) :
    l.sum / (l.length : ℚ) ≤ listMaxQ l := by
  have hlen : 0 < (l.length : ℚ) := by
    have := List.length_pos.mpr h
    exact_mod_cast this
  rw [div_le_iff₀ hlen]
  have hb := List.sum_le_card_nsmul l (listMaxQ l) (fun _ hx => le_listMaxQ hx)
  rwa [nsmul_eq_mul, mul_comm] at hb

theorem listMinQ_le_avg (l : List ℚ) (h : l ≠ []) :
    listMinQ l ≤ l.sum / (l.length : ℚ) := by
  have hlen : 0 < (l.length : ℚ) := by
    have := List.length_pos.mpr h
    exact_mod_cast this
  rw [le_div_iff₀ hlen]
  have hb := List.card_nsmul_le_sum l (listMinQ l) (fun _ hx => listMinQ_le hx)
  rwa [nsmul_eq_mul, mul_comm] at hb

theorem summarizeSwap_some {data : List SwapSnap} {s : SwapSummary}
    (h : summarizeSwap data = some s) :
    data ≠ [] ∧
    s.avg_swap_mb = (data.map fun d => d.swap_mb).sum / (data.length : ℚ) ∧
    s.max_swap_mb = listMaxQ (data.map fun d => d.swap_mb) ∧
    s.min_free_pct = listMinQ (data.map fun d => d.free_pct) ∧
    s.estimated_ssd_writes_mb = (data.map fun d => d.swap_mb).sum ∧
    s.samples = data.length := by
  unfold summarizeSwap at h
  cases data with
  | nil => simp at h
  | cons x xs =>
    simp only [List.isEmpty_cons, Bool.false_eq_true, if_false, Option.some.injEq] at h
    subst h
    exact ⟨List.cons_ne_nil x xs, rfl, rfl, rfl, rfl, rfl⟩

theorem summarizeSwap_none_iff (data : List SwapSnap) :
    summarizeSwap data = none ↔ data = [] := by
  unfold summarizeSwap
  cases data <;> simp

/-- C2: on both backends the swap summary is absent exactly when no
snapshot falls in the window; when present, `avg_swap_mb` is the exact
arithmetic mean of the in-window swap values and lies between their
minimum and maximum, `max_swap_mb` is their maximum, `min_free_pct` the
minimum free percentage, `estimated_ssd_writes_mb` their sum; and on the
samples [200, 400, 300] MB the summary is (avg 300, max 400, writes 900). -/
theorem swap_summary_characterization :
    (∀ snaps now hours,
      analyze_swap_usage_sqlite snaps now hours = none ↔
        snaps.filter (fun s => decide (hoursCutoff now hours ≤ s.ts)) = []) ∧
    (∀ rows now hours,
      analyze_swap_usage_csv (some rows) now hours = none ↔
        swapRowsInWindowCsv rows now hours = []) ∧
    (∀ data s, summarizeSwap data = some s →
      s.avg_swap_mb = (data.map fun d => d.swap_mb).sum / (data.length : ℚ) ∧
      listMinQ (data.map fun d => d.swap_mb) ≤ s.avg_swap_mb ∧
      s.avg_swap_mb ≤ listMaxQ (data.map fun d => d.swap_mb) ∧
      s.max_swap_mb ∈ (data.map fun d => d.swap_mb) ∧
      (∀ v ∈ data.map fun d => d.swap_mb, v ≤ s.max_swap_mb) ∧
      s.min_free_pct ∈ (data.map fun d => d.free_pct) ∧
      (∀ v ∈ data.map fun d => d.free_pct, s.min_free_pct ≤ v) ∧
      s.estimated_ssd_writes_mb = (data.map fun d => d.swap_mb).sum ∧
      s.samples = data.length) ∧
    ((analyze_swap_usage_sqlite
        [⟨0, 200, 1000, 80⟩, ⟨1, 400, 1000, 60⟩, ⟨2, 300, 1000, 70⟩] 3600 1).map
      (fun s => (s.avg_swap_mb, s.max_swap_mb, s.min_free_pct, s.estimated_ssd_writes_mb)) =
      some (300, 400, 60, 900)) := by
  refine ⟨?_, ?_, ?_, ?_⟩
  · intro snaps now hours
    unfold analyze_swap_usage_sqlite swapRowsInWindowSqlite
    rw [summarizeSwap_none_iff]
    constructor
    · intro h
      have hp := (List.perm_insertionSort (fun a b : SwapSnap => a.ts ≤ b.ts)
        (snaps.filter (fun s => decide (hoursCutoff now hours ≤ s.ts)))).length_eq
      rw [h] at hp
      exact List.length_eq_zero.mp hp.symm
    · intro h
      rw [h]
      rfl
  · intro rows now hours
    unfold analyze_swap_usage_csv
    exact summarizeSwap_none_iff _
  · intro data s h
    obtain ⟨hne, havg, hmax, hmin, hsum, hlen⟩ := summarizeSwap_some h
    have hmapne : (data.map fun d => d.swap_mb) ≠ [] := by
      cases data with
      | nil => exact absurd rfl hne
      | cons x xs => exact List.cons_ne_nil _ _
    have hmapfne : (data.map fun d => d.free_pct) ≠ [] := by
      cases data with
      | nil => exact absurd rfl hne
      | cons x xs => exact List.cons_ne_nil _ _
    have hlenmap : ((data.map fun d => d.swap_mb).length : ℚ) = (data.length : ℚ) := by
      rw [List.length_map]
    refine ⟨havg, ?_, ?_, ?_, ?_, ?_, ?_, hsum, hlen⟩
    · rw [havg, ← hlenmap]
      exact listMinQ_le_avg _ hmapne
    · rw [havg, ← hlenmap]
      exact avg_le_listMaxQ _ hmapne
    · rw [hmax]
      exact listMaxQ_mem hmapne
    · intro v hv
      rw [hmax]
      exact le_listMaxQ hv
    · rw [hmin]
      exact listMinQ_mem hmapfne
    · intro v hv
      rw [hmin]
      exact listMinQ_le hv
  · norm_num [analyze_swap_usage_sqlite, swapRowsInWindowSqlite, summarizeSwap,
      listMaxQ, listMinQ, hoursCutoff, max_def, min_def, Option.map,
      List.insertionSort, List.orderedInsert, List.filter, List.foldl]

/-- Concrete instantiation of C2 on the samples [200, 400, 300]: the mean
300 lies between the minimum 200 and the maximum 400. -/
theorem swap_summary_characterization_witness :
    listMinQ (([⟨0, 200, 1000, 80⟩, ⟨1, 400, 1000, 60⟩, ⟨2, 300, 1000, 70⟩] : List SwapSnap).map
        fun d => d.swap_mb) ≤
      (⟨300, 400, 60, 3, 900,
        [⟨0, 200, 1000, 80⟩, ⟨1, 400, 1000, 60⟩, ⟨2, 300, 1000, 70⟩]⟩ : SwapSummary).avg_swap_mb ∧
    (⟨300, 400, 60, 3, 900,
        [⟨0, 200, 1000, 80⟩, ⟨1, 400, 1000, 60⟩, ⟨2, 300, 1000, 70⟩]⟩ : SwapSummary).avg_swap_mb ≤
      listMaxQ (([⟨0, 200, 1000, 80⟩, ⟨1, 400, 1000, 60⟩, ⟨2, 300, 1000, 70⟩] : List SwapSnap).map
        fun d => d.swap_mb) := by
  have hs : summarizeSwap [⟨0, 200, 1000, 80⟩, ⟨1, 400, 1000, 60⟩, ⟨2, 300, 1000, 70⟩] =
      some ⟨300, 400, 60, 3, 900,
        [⟨0, 200, 1000, 80⟩, ⟨1, 400, 1000, 60⟩, ⟨2, 300, 1000, 70⟩]⟩ := by
    norm_num [summarizeSwap, listMaxQ, listMinQ, max_def, min_def, List.foldl]
  have h := swap_summary_characterization.2.2.1 _ _ hs
  exact ⟨h.2.1, h.2.2.1⟩

instance : IsTotal Alert (fun a b => b.ts ≤ a.ts) :=
  ⟨fun a b => le_total b.ts a.ts⟩

instance : IsTrans Alert (fun a b => b.ts ≤ a.ts) :=
  ⟨fun _ _ _ h1 h2 => le_trans h2 h1⟩

theorem alertsQuery_length_le (alerts : List Alert) (types : List String) (cutoff : Int) (cap : Nat) :
    (alertsQuery alerts types cutoff cap).length ≤ cap := by
  unfold alertsQuery
  exact List.length_take_le cap _

theorem alertsQuery_sorted (alerts : List Alert) (types : List String) (cutoff : Int) (cap : Nat) :
    List.Sorted (fun a b => b.ts ≤ a.ts) (alertsQuery alerts types cutoff cap) := by
  unfold alertsQuery
  exact List.Pairwise.sublist (List.take_sublist cap _) (List.sorted_insertionSort _ _)

theorem alertsQuery_mem {alerts : List Alert} {types : List String} {cutoff : Int} {cap : Nat}
    {a : Alert} (h : a ∈ alertsQuery alerts types cutoff cap) :
    a ∈ alerts ∧ cutoff ≤ a.ts ∧ a.type ∈ types := by
  unfold alertsQuery at h
  have h1 := (List.perm_insertionSort (fun a b : Alert => b.ts ≤ a.ts)
    (alerts.filter (fun a => decide (cutoff ≤ a.ts) && types.contains a.type))).mem_iff.mp
    (List.mem_of_mem_take h)
  have h2 := List.mem_filter.mp h1
  refine ⟨h2.1, ?_, ?_⟩
  · have := h2.2
    simp only [Bool.and_eq_true, decide_eq_true_eq] at this
    exact this.1
  · have := h2.2
    simp only [Bool.and_eq_true, decide_eq_true_eq] at this
    exact (List.elem_iff).mp this.2

theorem filter_replicate_pos {α : Type} (p : α → Bool) (a : α) (n : Nat) (hp : p a = true) :
    (List.replicate n a).filter p = List.replicate n a := by
  induction n with
  | zero => rfl
  | succ n ih => rw [List.replicate_succ, List.filter_cons_of_pos hp, ih, ← List.replicate_succ]

/-- C3 counterexample: with no structured store and a legacy
`memory_leaks.log` of 201 marker lines, `get_memory_leaks` returns 201
entries — the legacy fallback has no cap, refuting the claim as stated
for the flat-file backend. -/
theorem leak_cap_violated_on_legacy_backend :
    ¬ ((get_memory_leaks
        { db := none, memCsv := none, swapCsv := none,
          leaksLog := some (List.replicate 201 ⟨0, "POTENTIAL LEAK"⟩),
          prefsFile := none, now := 0, fmtTs := fun _ => "",
          expandPath := fun p => p, pathExists := fun _ => false } 168).length ≤ 200) := by
  show ¬ (((legacyLeakSelect (List.replicate 201 ⟨0, "POTENTIAL LEAK"⟩)).map
      (fun l => l.text.trim)).length ≤ 200)
  rw [List.length_map]
  unfold legacyLeakSelect
  rw [filter_replicate_pos (fun l : LeakLine => hasLeakMarker l.text)
        ⟨0, "POTENTIAL LEAK"⟩ 201 (by decide),
      List.length_replicate]
  omega

/-- C3 amended: the caps (200/50/50) and the descending-timestamp order
hold for the three structured-backend queries; without a structured store
the hint and system-alert queries return the empty list, while the leak
query falls back to the legacy log and returns every marker line, uncapped
and in file order. -/
theorem alert_list_caps_amended :
    (∀ f alerts now hours,
      (get_memory_leaks_sqlite f alerts now hours).length ≤ 200 ∧
      List.Sorted (fun a b => b.ts ≤ a.ts)
        (alertsQuery alerts leakAlertTypes (hoursCutoff now hours) 200)) ∧
    (∀ f alerts now hours,
      (get_diagnostic_hints_sqlite f alerts now hours).length ≤ 50 ∧
      List.Sorted (fun a b => b.ts ≤ a.ts)
        (alertsQuery alerts ["DIAGNOSTIC_HINT"] (hoursCutoff now hours) 50)) ∧
    (∀ f alerts now hours,
      (get_system_alerts_sqlite f alerts now hours).length ≤ 50 ∧
      List.Sorted (fun a b => b.ts ≤ a.ts)
        (alertsQuery alerts systemAlertTypes (hoursCutoff now hours) 50)) ∧
    (∀ w hours, w.db = none →
      get_diagnostic_hints w hours = [] ∧ get_system_alerts w hours = []) ∧
    (∀ w hours lines, w.db = none → w.leaksLog = some lines →
      get_memory_leaks w hours = (legacyLeakSelect lines).map (fun l => l.text.trim)) := by
  refine ⟨?_, ?_, ?_, ?_, ?_⟩
  · intro f alerts now hours
    constructor
    · unfold get_memory_leaks_sqlite
      rw [List.length_map]
      exact alertsQuery_length_le _ _ _ _
    · exact alertsQuery_sorted _ _ _ _
  · intro f alerts now hours
    constructor
    · unfold get_diagnostic_hints_sqlite
      rw [List.length_map]
      exact alertsQuery_length_le _ _ _ _
    · exact alertsQuery_sorted _ _ _ _
  · intro f alerts now hours
    constructor
    · unfold get_system_alerts_sqlite
      rw [List.length_map]
      exact alertsQuery_length_le _ _ _ _
    · exact alertsQuery_sorted _ _ _ _
  · intro w hours hdb
    unfold get_diagnostic_hints get_system_alerts
    rw [hdb]
    exact ⟨rfl, rfl⟩
  · intro w hours lines hdb hlog
    unfold get_memory_leaks
    rw [hdb]
    unfold get_memory_leaks_legacy
    rw [hlog]

/-- Concrete instantiation of C3 (amended): a world without a structured
store returns the single legacy marker line, bypassing query caps and
formatting. -/
theorem alert_list_caps_amended_witness :
    get_memory_leaks
      { db := none, memCsv := none, swapCsv := none,
        leaksLog := some [⟨0, "POTENTIAL LEAK"⟩],
        prefsFile := none, now := 0, fmtTs := fun _ => "",
        expandPath := fun p => p, pathExists := fun _ => false } 168 =
      (legacyLeakSelect [⟨0, "POTENTIAL LEAK"⟩]).map (fun l => l.text.trim) :=
  alert_list_caps_amended.2.2.2.2
    { db := none, memCsv := none, swapCsv := none,
      leaksLog := some [⟨0, "POTENTIAL LEAK"⟩],
      prefsFile := none, now := 0, fmtTs := fun _ => "",
      expandPath := fun p => p, pathExists := fun _ => false }
    168 [⟨0, "POTENTIAL LEAK"⟩] rfl rfl

/-- C4 counterexample: with no structured store, a legacy leak line whose
timestamp 0 is far older than the 168-hour window ending at `now = 1000000`
is still returned — the legacy fallback applies no time filter. -/
theorem legacy_leaks_ignore_window :
    (get_memory_leaks
      { db := none, memCsv := none, swapCsv := none,
        leaksLog := some [⟨0, "2001-09-09 POTENTIAL LEAK detected"⟩],
        prefsFile := none, now := 1000000, fmtTs := fun _ => "",
        expandPath := fun p => p, pathExists := fun _ => false } 168).length = 1 ∧
    (0 : Int) < hoursCutoff 1000000 168 := by
  constructor
  · show ((legacyLeakSelect [⟨0, "2001-09-09 POTENTIAL LEAK detected"⟩]).map
      (fun l => l.text.trim)).length = 1
    rw [List.length_map]
    unfold legacyLeakSelect
    decide
  · decide

/-- C4 amended: every record returned by the structured-backend alert
queries and by both trend/swap row selections (sqlite and CSV) has
timestamp at least `now - hours*3600`; the legacy leak fallback instead
selects purely by marker text, with no time constraint. -/
theorem window_filtering_amended :
    (∀ alerts types cutoff cap a, a ∈ alertsQuery alerts types cutoff cap → cutoff ≤ a.ts) ∧
    (∀ dbRows now hours r, r ∈ trendRowsInWindowSqlite dbRows now hours →
      hoursCutoff now hours ≤ r.ts) ∧
    (∀ rows now hours r, r ∈ trendRowsInWindowCsv rows now hours →
      hoursCutoff now hours ≤ r.ts) ∧
    (∀ snaps now hours s, s ∈ swapRowsInWindowSqlite snaps now hours →
      hoursCutoff now hours ≤ s.ts) ∧
    (∀ rows now hours s, s ∈ swapRowsInWindowCsv rows now hours →
      hoursCutoff now hours ≤ s.ts) ∧
    (∀ lines l, l ∈ legacyLeakSelect lines → l ∈ lines ∧ hasLeakMarker l.text = true) := by
  refine ⟨?_, ?_, ?_, ?_, ?_, ?_⟩
  · intro alerts types cutoff cap a h
    exact (alertsQuery_mem h).2.1
  · intro dbRows now hours r h
    unfold trendRowsInWindowSqlite at h
    have h1 := (List.perm_insertionSort (fun a b : SampleRow => a.ts ≤ b.ts)
      (dbRows.filter (fun r => decide (hoursCutoff now hours ≤ r.ts)))).mem_iff.mp h
    have h2 := (List.mem_filter.mp h1).2
    exact of_decide_eq_true h2
  · intro rows now hours r h
    unfold trendRowsInWindowCsv at h
    exact of_decide_eq_true (List.mem_filter.mp h).2
  · intro snaps now hours s h
    unfold swapRowsInWindowSqlite at h
    have h1 := (List.perm_insertionSort (fun a b : SwapSnap => a.ts ≤ b.ts)
      (snaps.filter (fun s => decide (hoursCutoff now hours ≤ s.ts)))).mem_iff.mp h
    exact of_decide_eq_true (List.mem_filter.mp h1).2
  · intro rows now hours s h
    unfold swapRowsInWindowCsv at h
    exact of_decide_eq_true (List.mem_filter.mp h).2
  · intro lines l h
    unfold legacyLeakSelect at h
    have h1 := List.mem_filter.mp h
    exact ⟨h1.1, h1.2⟩

/-- Concrete instantiation of C4 (amended): an alert at timestamp 5 with
cutoff 0 is in the query result and indeed satisfies `0 ≤ ts`. -/
theorem window_filtering_amended_witness :
    (⟨5, "MEMORY_LEAK", "m", none, none, AlertMetadata.absent⟩ : Alert) ∈
      alertsQuery [⟨5, "MEMORY_LEAK", "m", none, none, AlertMetadata.absent⟩]
        leakAlertTypes 0 200 ∧
    (0 : Int) ≤ (⟨5, "MEMORY_LEAK", "m", none, none, AlertMetadata.absent⟩ : Alert).ts :=
  ⟨by decide,
   window_filtering_amended.1 [⟨5, "MEMORY_LEAK", "m", none, none, AlertMetadata.absent⟩]
     leakAlertTypes 0 200 ⟨5, "MEMORY_LEAK", "m", none, none, AlertMetadata.absent⟩ (by decide)⟩

instance : IsTotal Artifact (fun a b => a.title ≤ b.title) :=
  ⟨fun a b => le_total a.title b.title⟩

instance : IsTrans Artifact (fun a b => a.title ≤ b.title) :=
  ⟨fun _ _ _ h1 h2 => le_trans h1 h2⟩

theorem collectArtifacts_pairwise (expand : String → String) (pexists : String → Bool) :
    ∀ (rs : List Alert) (seen : List (String × Bool)) (acc : List Artifact),
      acc.Pairwise (fun a b => artifactKey a ≠ artifactKey b) →
      (∀ a ∈ acc, artifactKey a ∈ seen) →
      (collectArtifacts expand pexists rs seen acc).Pairwise
        (fun a b => artifactKey a ≠ artifactKey b) := by
  intro rs
  induction rs with
  | nil =>
    intro seen acc hacc _
    exact hacc
  | cons r rs ih =>
    intro seen acc hacc hseen
    show (collectArtifacts expand pexists (r :: rs) seen acc).Pairwise _
    unfold collectArtifacts
    cases hext : extractArtifact expand pexists r with
    | none => exact ih seen acc hacc hseen
    | some a =>
      dsimp only
      by_cases hk : artifactKey a ∈ seen
      · rw [if_pos hk]
        exact ih seen acc hacc hseen
      · rw [if_neg hk]
        refine ih (artifactKey a :: seen) (acc ++ [a]) ?_ ?_
        · refine List.pairwise_append.mpr ⟨hacc, List.pairwise_singleton _ _, ?_⟩
          intro x hx y hy
          rw [List.mem_singleton.mp hy]
          intro hkey
          exact hk (hkey ▸ hseen x hx)
        · intro x hx
          rcases List.mem_append.mp hx with h | h
          · exact List.mem_cons_of_mem _ (hseen x h)
          · rw [List.mem_singleton.mp h]
            exact List.mem_cons_self _ _

theorem collectArtifacts_mem (expand : String → String) (pexists : String → Bool) :
    ∀ (rs : List Alert) (seen : List (String × Bool)) (acc : List Artifact)
      (x : Artifact), x ∈ collectArtifacts expand pexists rs seen acc →
      x ∈ acc ∨ ∃ r ∈ rs, extractArtifact expand pexists r = some x := by
  intro rs
  induction rs with
  | nil =>
    intro seen acc x hx
    exact Or.inl hx
  | cons r rs ih =>
    intro seen acc x hx
    rw [show collectArtifacts expand pexists (r :: rs) seen acc =
      (match extractArtifact expand pexists r with
       | none => collectArtifacts expand pexists rs seen acc
       | some a =>
         if artifactKey a ∈ seen then collectArtifacts expand pexists rs seen acc
         else collectArtifacts expand pexists rs (artifactKey a :: seen) (acc ++ [a]))
      from rfl] at hx
    cases hext : extractArtifact expand pexists r with
    | none =>
      rw [hext] at hx
      rcases ih seen acc x hx with h | ⟨r2, hr2, he2⟩
      · exact Or.inl h
      · exact Or.inr ⟨r2, List.mem_cons_of_mem _ hr2, he2⟩
    | some a =>
      rw [hext] at hx
      dsimp only at hx
      by_cases hk : artifactKey a ∈ seen
      · rw [if_pos hk] at hx
        rcases ih seen acc x hx with h | ⟨r2, hr2, he2⟩
        · exact Or.inl h
        · exact Or.inr ⟨r2, List.mem_cons_of_mem _ hr2, he2⟩
      · rw [if_neg hk] at hx
        rcases ih (artifactKey a :: seen) (acc ++ [a]) x hx with h | ⟨r2, hr2, he2⟩
        · rcases List.mem_append.mp h with h1 | h1
          · exact Or.inl h1
          · rw [List.mem_singleton.mp h1]
            exact Or.inr ⟨r, List.mem_cons_self _ _, hext⟩
        · exact Or.inr ⟨r2, List.mem_cons_of_mem _ hr2, he2⟩

theorem extractArtifact_inv {expand : String → String} {pexists : String → Bool}
    {r : Alert} {a : Artifact} (h : extractArtifact expand pexists r = some a) :
    ∃ meta p, r.metadata = AlertMetadata.parsed meta ∧ meta.artifact_path = some p ∧
      p ≠ "" ∧ a.path = expand p ∧ a.existsFlag = pexists (expand p) ∧
      a.title = artifactTitle meta r.message := by
  unfold extractArtifact at h
  cases hm : r.metadata with
  | absent =>
    rw [hm] at h
    exact absurd h (by simp)
  | malformed =>
    rw [hm] at h
    exact absurd h (by simp)
  | parsed meta =>
    rw [hm] at h
    dsimp only at h
    cases hp : meta.artifact_path with
    | none =>
      rw [hp] at h
      exact absurd h (by simp)
    | some p =>
      rw [hp] at h
      dsimp only at h
      by_cases hemp : p = ""
      · rw [if_pos hemp] at h
        exact absurd h (by simp)
      · rw [if_neg hemp] at h
        simp only [Option.some.injEq] at h
        subst h
        exact ⟨meta, p, rfl, hp, hemp, rfl, rfl, rfl⟩

/-- C7 (amended): on every store the artifact list has no two entries
with the same (resolved path, existence) key and is sorted ascending by
title, and every entry stems from an in-window DIAGNOSTIC_HINT alert with
parsed metadata and truthy `artifact_path`: its path is the user-expanded
(`Path.expanduser`) resolution of that `artifact_path` — tilde expansion
only, so a relative path stays relative and need not be absolute — its
existence flag is the live filesystem test of the resolved path, and its
title is the metadata title, defaulting to the alert's message when
absent or falsy. -/
theorem diagnostic_artifacts_properties :
    ∀ w hours,
      (get_diagnostic_artifacts w hours).Pairwise (fun a b => artifactKey a ≠ artifactKey b) ∧
      List.Sorted (fun a b : Artifact => a.title ≤ b.title) (get_diagnostic_artifacts w hours) ∧
      (∀ a ∈ get_diagnostic_artifacts w hours, ∃ s, w.db = some s ∧
        ∃ r ∈ alertsQuery s.alerts ["DIAGNOSTIC_HINT"] (hoursCutoff w.now hours) 200,
          ∃ meta p, r.metadata = AlertMetadata.parsed meta ∧ meta.artifact_path = some p ∧
            p ≠ "" ∧ a.path = w.expandPath p ∧ a.existsFlag = w.pathExists (w.expandPath p) ∧
            a.title = artifactTitle meta r.message) := by
  intro w hours
  cases hdb : w.db with
  | none =>
    unfold get_diagnostic_artifacts
    rw [hdb]
    exact ⟨List.Pairwise.nil, List.sorted_nil, by intro a ha; cases ha⟩
  | some s =>
    unfold get_diagnostic_artifacts
    rw [hdb]
    dsimp only
    refine ⟨?_, ?_, ?_⟩
    · unfold get_diagnostic_artifacts_sqlite
      refine (List.Perm.pairwise_iff ?_ (List.perm_insertionSort _ _)).mpr ?_
      · intro a b hab
        exact fun h => hab h.symm
      · exact collectArtifacts_pairwise _ _ _ [] [] List.Pairwise.nil
          (by intro a ha; cases ha)
    · exact List.sorted_insertionSort _ _
    · intro a ha
      unfold get_diagnostic_artifacts_sqlite at ha
      have h1 := (List.perm_insertionSort (fun a b : Artifact => a.title ≤ b.title)
        (collectArtifacts w.expandPath w.pathExists
          (alertsQuery s.alerts ["DIAGNOSTIC_HINT"] (hoursCutoff w.now hours) 200)
          [] [])).mem_iff.mp ha
      rcases collectArtifacts_mem _ _ _ [] [] a h1 with h | ⟨r, hr, hex⟩
      · cases h
      · obtain ⟨meta, p, h⟩ := extractArtifact_inv hex
        exact ⟨s, rfl, r, hr, meta, p, h⟩

/-- Concrete instantiation of C7: a single hint alert with metadata path
"/tmp/x" yields the artifact entry titled by the alert message, with the
identity expansion and a false existence flag. -/
theorem diagnostic_artifacts_properties_witness :
    (⟨"msg", "/tmp/x", false⟩ : Artifact) ∈ get_diagnostic_artifacts artifactDemoWorld 48 ∧
    (∃ s, artifactDemoWorld.db = some s ∧
      ∃ r ∈ alertsQuery s.alerts ["DIAGNOSTIC_HINT"]
          (hoursCutoff artifactDemoWorld.now 48) 200,
        ∃ meta p, r.metadata = AlertMetadata.parsed meta ∧ meta.artifact_path = some p ∧
          p ≠ "" ∧ (⟨"msg", "/tmp/x", false⟩ : Artifact).path = artifactDemoWorld.expandPath p ∧
          (⟨"msg", "/tmp/x", false⟩ : Artifact).existsFlag =
            artifactDemoWorld.pathExists (artifactDemoWorld.expandPath p) ∧
          (⟨"msg", "/tmp/x", false⟩ : Artifact).title = artifactTitle meta r.message) := by
  have hmem : (⟨"msg", "/tmp/x", false⟩ : Artifact) ∈
      get_diagnostic_artifacts artifactDemoWorld 48 := by decide
  exact ⟨hmem, (diagnostic_artifacts_properties artifactDemoWorld 48).2.2 _ hmem⟩

theorem generate_report_eq (fmtF1 : ℚ → String) (w : World) (hours : Int) :
    generate_report fmtF1 w hours =
      reportIntro w hours ++
      trendSection fmtF1 (analyze_memory_trends w hours) ++
      swapSection fmtF1 (analyze_swap_usage w hours) ++
      leakSection (get_memory_leaks w 168) ++
      hintSection (get_diagnostic_hints w 48) ++
      prefsSection (load_notification_preferences w) ++
      alertSection (get_system_alerts w 72) ++
      artifactSection (get_diagnostic_artifacts w 48) ++
      [hline] := rfl

theorem mem_report_of_mem_trendSection {x : String} (fmtF1 : ℚ → String) (w : World)
    (hours : Int) (hx : x ∈ trendSection fmtF1 (analyze_memory_trends w hours)) :
    x ∈ generate_report fmtF1 w hours := by
  rw [generate_report_eq]
  simp only [List.mem_append]
  tauto

theorem mem_report_of_mem_swapSection {x : String} (fmtF1 : ℚ → String) (w : World)
    (hours : Int) (hx : x ∈ swapSection fmtF1 (analyze_swap_usage w hours)) :
    x ∈ generate_report fmtF1 w hours := by
  rw [generate_report_eq]
  simp only [List.mem_append]
  tauto

theorem mem_report_of_mem_leakSection {x : String} (fmtF1 : ℚ → String) (w : World)
    (hours : Int) (hx : x ∈ leakSection (get_memory_leaks w 168)) :
    x ∈ generate_report fmtF1 w hours := by
  rw [generate_report_eq]
  simp only [List.mem_append]
  tauto

theorem mem_report_of_mem_hintSection {x : String} (fmtF1 : ℚ → String) (w : World)
    (hours : Int) (hx : x ∈ hintSection (get_diagnostic_hints w 48)) :
    x ∈ generate_report fmtF1 w hours := by
  rw [generate_report_eq]
  simp only [List.mem_append]
  tauto

theorem mem_report_of_mem_prefsSection {x : String} (fmtF1 : ℚ → String) (w : World)
    (hours : Int) (hx : x ∈ prefsSection (load_notification_preferences w)) :
    x ∈ generate_report fmtF1 w hours := by
  rw [generate_report_eq]
  simp only [List.mem_append]
  tauto

theorem mem_report_of_mem_alertSection {x : String} (fmtF1 : ℚ → String) (w : World)
    (hours : Int) (hx : x ∈ alertSection (get_system_alerts w 72)) :
    x ∈ generate_report fmtF1 w hours := by
  rw [generate_report_eq]
  simp only [List.mem_append]
  tauto

theorem mem_report_of_mem_artifactSection {x : String} (fmtF1 : ℚ → String) (w : World)
    (hours : Int) (hx : x ∈ artifactSection (get_diagnostic_artifacts w 48)) :
    x ∈ generate_report fmtF1 w hours := by
  rw [generate_report_eq]
  simp only [List.mem_append]
  tauto

theorem trendSection_header (fmtF1 : ℚ → String) (trends : List GrowthResult) :
    "## Top Memory Growth Processes" ∈ trendSection fmtF1 trends := by
  unfold trendSection
  simp

theorem swapSection_header (fmtF1 : ℚ → String) (swap : Option SwapSummary) :
    "## Swap Usage Analysis" ∈ swapSection fmtF1 swap := by
  unfold swapSection
  simp

theorem leakSection_header (leaks : List String) :
    "## Potential Memory Leaks" ∈ leakSection leaks := by
  unfold leakSection
  simp

theorem hintSection_header (hints : List String) :
    "## Diagnostic Suggestions" ∈ hintSection hints := by
  unfold hintSection
  simp

theorem prefsSection_header (prefs : Option Prefs) :
    "## Notification Preferences" ∈ prefsSection prefs := by
  unfold prefsSection
  simp

theorem alertSection_header (alerts : List String) :
    "## System Alerts" ∈ alertSection alerts := by
  unfold alertSection
  simp

theorem artifactSection_header (arts : List Artifact) :
    "## Diagnostic Artifacts" ∈ artifactSection arts := by
  unfold artifactSection
  simp

theorem trendSection_placeholder (fmtF1 : ℚ → String) {trends : List GrowthResult}
    (h : trends = []) : "No data available" ∈ trendSection fmtF1 trends := by
  subst h
  simp [trendSection]

theorem swapSection_placeholder (fmtF1 : ℚ → String) {swap : Option SwapSummary}
    (h : swap = none) : "No data available" ∈ swapSection fmtF1 swap := by
  subst h
  simp [swapSection]

theorem leakSection_placeholder {leaks : List String} (h : leaks = []) :
    "✓ No memory leaks detected" ∈ leakSection leaks := by
  subst h
  simp [leakSection]

theorem hintSection_placeholder {hints : List String} (h : hints = []) :
    "No runtime-specific diagnostic hints recorded" ∈ hintSection hints := by
  subst h
  simp [hintSection]

theorem prefsSection_placeholder {prefs : Option Prefs} (h : prefs = none) :
    "  No preference file found (defaults in effect)" ∈ prefsSection prefs := by
  subst h
  simp [prefsSection]

theorem alertSection_placeholder {alerts : List String} (h : alerts = []) :
    "No high-pressure or swap alerts recorded" ∈ alertSection alerts := by
  subst h
  simp [alertSection]

theorem artifactSection_placeholder {arts : List Artifact} (h : arts = []) :
    "No artifacts persisted yet." ∈ artifactSection arts := by
  subst h
  simp [artifactSection]

/-- Robustness of the report over the non-raising states: every generated
report contains all seven section headers, and every section whose data
source yields nothing contains its explicit placeholder line.  (The
degraded database state on which the source raises instead is treated
separately via `generate_report_checked`.) -/
theorem report_sections_robust :
    ∀ fmtF1 w hours,
      ("## Top Memory Growth Processes" ∈ generate_report fmtF1 w hours ∧
       "## Swap Usage Analysis" ∈ generate_report fmtF1 w hours ∧
       "## Potential Memory Leaks" ∈ generate_report fmtF1 w hours ∧
       "## Diagnostic Suggestions" ∈ generate_report fmtF1 w hours ∧
       "## Notification Preferences" ∈ generate_report fmtF1 w hours ∧
       "## System Alerts" ∈ generate_report fmtF1 w hours ∧
       "## Diagnostic Artifacts" ∈ generate_report fmtF1 w hours) ∧
      (analyze_memory_trends w hours = [] →
        "No data available" ∈ generate_report fmtF1 w hours) ∧
      (analyze_swap_usage w hours = none →
        "No data available" ∈ generate_report fmtF1 w hours) ∧
      (get_memory_leaks w 168 = [] →
        "✓ No memory leaks detected" ∈ generate_report fmtF1 w hours) ∧
      (get_diagnostic_hints w 48 = [] →
        "No runtime-specific diagnostic hints recorded" ∈ generate_report fmtF1 w hours) ∧
      (load_notification_preferences w = none →
        "  No preference file found (defaults in effect)" ∈ generate_report fmtF1 w hours) ∧
      (get_system_alerts w 72 = [] →
        "No high-pressure or swap alerts recorded" ∈ generate_report fmtF1 w hours) ∧
      (get_diagnostic_artifacts w 48 = [] →
        "No artifacts persisted yet." ∈ generate_report fmtF1 w hours) := by
  intro fmtF1 w hours
  refine ⟨⟨?_, ?_, ?_, ?_, ?_, ?_, ?_⟩, ?_, ?_, ?_, ?_, ?_, ?_, ?_⟩
  · exact mem_report_of_mem_trendSection _ _ _ (trendSection_header _ _)
  · exact mem_report_of_mem_swapSection _ _ _ (swapSection_header _ _)
  · exact mem_report_of_mem_leakSection _ _ _ (leakSection_header _)
  · exact mem_report_of_mem_hintSection _ _ _ (hintSection_header _)
  · exact mem_report_of_mem_prefsSection _ _ _ (prefsSection_header _)
  · exact mem_report_of_mem_alertSection _ _ _ (alertSection_header _)
  · exact mem_report_of_mem_artifactSection _ _ _ (artifactSection_header _)
  · intro h
    exact mem_report_of_mem_trendSection _ _ _ (trendSection_placeholder _ h)
  · intro h
    exact mem_report_of_mem_swapSection _ _ _ (swapSection_placeholder _ h)
  · intro h
    exact mem_report_of_mem_leakSection _ _ _ (leakSection_placeholder h)
  · intro h
    exact mem_report_of_mem_hintSection _ _ _ (hintSection_placeholder h)
  · intro h
    exact mem_report_of_mem_prefsSection _ _ _ (prefsSection_placeholder h)
  · intro h
    exact mem_report_of_mem_alertSection _ _ _ (alertSection_placeholder h)
  · intro h
    exact mem_report_of_mem_artifactSection _ _ _ (artifactSection_placeholder h)

/-- Concrete instantiation of the section-robustness theorem: with the
store and every flat file absent, the report still carries the trend and
swap headers together with their "No data available" placeholders, and
the leak placeholder. -/
theorem report_sections_robust_witness :
    "No data available" ∈ generate_report (fun _ => "") emptyWorld 24 ∧
    "✓ No memory leaks detected" ∈ generate_report (fun _ => "") emptyWorld 24 ∧
    "## Top Memory Growth Processes" ∈ generate_report (fun _ => "") emptyWorld 24 ∧
    "## Swap Usage Analysis" ∈ generate_report (fun _ => "") emptyWorld 24 :=
  ⟨(report_sections_robust (fun _ => "") emptyWorld 24).2.1 rfl,
   (report_sections_robust (fun _ => "") emptyWorld 24).2.2.2.1 rfl,
   (report_sections_robust (fun _ => "") emptyWorld 24).1.1,
   (report_sections_robust (fun _ => "") emptyWorld 24).1.2.1⟩

/-- C9: the CLI window argument reaches only the trend and swap analyses;
the leak, hint, system-alert and artifact queries of `generate_report`
always run with the fixed default windows 168, 48, 72 and 48 hours,
independent of the CLI window. -/
theorem report_fixed_query_windows :
    ∀ (w : World) (h1 h2 : Int),
      (reportQueries w h1).leaks = (reportQueries w h2).leaks ∧
      (reportQueries w h1).hints = (reportQueries w h2).hints ∧
      (reportQueries w h1).systemAlerts = (reportQueries w h2).systemAlerts ∧
      (reportQueries w h1).artifacts = (reportQueries w h2).artifacts ∧
      (reportQueries w h1).leaks = get_memory_leaks w 168 ∧
      (reportQueries w h1).hints = get_diagnostic_hints w 48 ∧
      (reportQueries w h1).systemAlerts = get_system_alerts w 72 ∧
      (reportQueries w h1).artifacts = get_diagnostic_artifacts w 48 ∧
      (reportQueries w h1).trends = analyze_memory_trends w h1 ∧
      (reportQueries w h1).swap = analyze_swap_usage w h1 :=
  fun _ _ _ => ⟨rfl, rfl, rfl, rfl, rfl, rfl, rfl, rfl, rfl, rfl⟩

/-- C10: when more than 20 leak lines are retrieved, the leak section
renders exactly the last 20 entries of the descending-by-timestamp list
(`leaks[-20:]`, the oldest retrieved ones), dropping the most recent
`length - 20` entries from the front; and the leak section built from the
168-hour leak query occurs verbatim inside every generated report. -/
theorem leak_section_renders_last_twenty :
    (∀ leaks : List String, 20 < leaks.length →
      leakSection leaks =
        ["## Potential Memory Leaks", divider,
         "Found " ++ toString leaks.length ++ " potential leak(s):"] ++
        (leaks.drop (leaks.length - 20)).map (fun l => "  " ++ l) ++ [""] ∧
      (leaks.drop (leaks.length - 20)).length = 20 ∧
      leaks.take (leaks.length - 20) ++ leaks.drop (leaks.length - 20) = leaks ∧
      0 < (leaks.take (leaks.length - 20)).length) ∧
    (∀ fmtF1 w hours, ∃ pre post,
      generate_report fmtF1 w hours =
        pre ++ leakSection (get_memory_leaks w 168) ++ post) := by
  constructor
  · intro leaks h
    have hne : leaks.isEmpty = false := by
      cases leaks with
      | nil => simp at h
      | cons a l => rfl
    refine ⟨?_, ?_, List.take_append_drop _ _, ?_⟩
    · simp [leakSection, pySliceLast, hne]
    · rw [List.length_drop]
      omega
    · rw [List.length_take]
      omega
  · intro fmtF1 w hours
    refine ⟨reportIntro w hours ++ trendSection fmtF1 (analyze_memory_trends w hours) ++
      swapSection fmtF1 (analyze_swap_usage w hours),
      hintSection (get_diagnostic_hints w 48) ++
      prefsSection (load_notification_preferences w) ++
      alertSection (get_system_alerts w 72) ++
      artifactSection (get_diagnostic_artifacts w 48) ++ [hline], ?_⟩
    rw [generate_report_eq]
    simp [List.append_assoc]

/-- Concrete instantiation of C10: on 21 retrieved leak lines the section
renders the last 20 of them. -/
theorem leak_section_renders_last_twenty_witness :
    leakSection (List.replicate 21 "L") =
      ["## Potential Memory Leaks", divider,
       "Found " ++ toString (List.replicate 21 "L").length ++ " potential leak(s):"] ++
      ((List.replicate 21 "L").drop ((List.replicate 21 "L").length - 20)).map
        (fun l => "  " ++ l) ++ [""] ∧
    ((List.replicate 21 "L").drop ((List.replicate 21 "L").length - 20)).length = 20 :=
  ⟨(leak_section_renders_last_twenty.1 (List.replicate 21 "L") (by decide)).1,
   (leak_section_renders_last_twenty.1 (List.replicate 21 "L") (by decide)).2.1⟩

/-- C7 counterexample: the source resolves each artifact path with
`Path(artifact_path).expanduser()` only, which leaves a relative path
relative.  With home directory "/Users/u", the hint metadata path
"relative/leak.log" is reported verbatim and fails the POSIX absoluteness
test, refuting the claim that each entry's path is the absolute,
user-expanded resolution. -/
theorem artifact_path_not_absolute :
    (⟨"msg2", "relative/leak.log", false⟩ : Artifact) ∈
      get_diagnostic_artifacts relativeArtifactWorld 48 ∧
    relativeArtifactWorld.expandPath "relative/leak.log" = "relative/leak.log" ∧
    isAbsolutePath ((⟨"msg2", "relative/leak.log", false⟩ : Artifact).path) = false :=
  ⟨by decide, by decide, by decide⟩

/-- C8: the claim states the spec's error-handling design (a missing
table is a degradation to recover as "no data"), and the code violates
it.  With the database file present but the expected tables absent, the
run raises `sqlite3.OperationalError` at the first query and no report is
produced — `generate_report` aborts with a nonzero exit instead of
rendering placeholder sections; in both non-raising database states the
run coincides with the total report function. -/
theorem report_crash_on_present_empty_database :
    (∀ (fmtF1 : ℚ → String) (w : WorldE) (hours : Int),
      generate_report_checked fmtF1 { w with db := DbState.missingTables } hours =
        Except.error "sqlite3.OperationalError: no such table") ∧
    (∀ (fmtF1 : ℚ → String) (w : WorldE) (hours : Int) (out : List String),
      generate_report_checked fmtF1 { w with db := DbState.missingTables } hours ≠
        Except.ok out) ∧
    (∀ (fmtF1 : ℚ → String) (w : WorldE) (hours : Int),
      generate_report_checked fmtF1 { w with db := DbState.absent } hours =
        Except.ok (generate_report fmtF1
          (WorldE.toWorld { w with db := DbState.absent } none) hours)) ∧
    (∀ (fmtF1 : ℚ → String) (w : WorldE) (hours : Int) (s : Store),
      generate_report_checked fmtF1 { w with db := DbState.ready s } hours =
        Except.ok (generate_report fmtF1
          (WorldE.toWorld { w with db := DbState.ready s } (some s)) hours)) :=
  ⟨fun _ _ _ => rfl,
   fun _ _ _ _ h => Except.noConfusion h,
   fun _ _ _ => rfl,
   fun _ _ _ _ => rfl⟩
